import Mathlib

/-!
# Verification of the TestVerse exam-attempt lifecycle, deadline enforcement
# and grading engine

Shallow embedding of the core logic of the TestVerse backend
(`backend/utils/helpers.py`, `backend/exams/views.py`, `backend/exams/tasks.py`,
`backend/exams/management/commands/auto_submit_exams.py`,
`backend/exams/models.py`).

Modelling conventions:
* timestamps are integers (seconds); `Decimal` marks are rationals;
* JSON payloads stored in `JSONField`s are modelled by the inductive `PyVal`
  (Python `None` / `bool` / `int` / `str` / `list` / `dict` with string keys);
* `str.lower()` / `str.strip()` are modelled over ASCII, and `repr` of nested
  containers follows CPython's quoting rule for ordinary printable strings —
  the exotic corner cases (unicode case folding, non-printable escapes) do not
  decide any property below;
* the current wall-clock time (`timezone.now()`) is an explicit argument.
-/

/-- A Python/JSON value as stored in a Django `JSONField`. -/
inductive PyVal where
  | none
  | bool (b : Bool)
  | int (n : Int)
  | str (s : String)
  | list (xs : List PyVal)
  | dict (kvs : List (String × PyVal))

/-- Characters treated as whitespace by `str.strip()` (ASCII fragment). -/
def isPySpace (c : Char) : Bool :=
  c = ' ' || c = '\t' || c = '\n' || c = '\x0d' || c = '\x0b' || c = '\x0c'

/-- `str.strip()` (ASCII whitespace). -/
def pyStrip (s : String) : String :=
  String.mk (((s.data.dropWhile isPySpace).reverse.dropWhile isPySpace).reverse)

/-- `str.lower()` (ASCII case folding). -/
def pyLower (s : String) : String :=
  String.mk (s.data.map Char.toLower)

/-- One escaped character of a Python `repr` of a string, given the chosen
quote character. -/
def pyReprChar (quote : Char) (c : Char) : String :=
  if c = Char.ofNat 92 then String.mk [Char.ofNat 92, Char.ofNat 92]
  else if c = quote then String.mk [Char.ofNat 92, quote]
  else if c = '\n' then String.mk [Char.ofNat 92, 'n']
  else if c = '\t' then String.mk [Char.ofNat 92, 't']
  else if c = '\x0d' then String.mk [Char.ofNat 92, 'r']
  else String.mk [c]

/-- Python `repr` of a string: single quotes, unless the string contains a
single quote and no double quote. -/
def pyReprStr (s : String) : String :=
  let sq := Char.ofNat 39
  let dq := Char.ofNat 34
  let quote := if s.data.contains sq && !(s.data.contains dq) then dq else sq
  String.mk [quote] ++ String.join (s.data.map (pyReprChar quote)) ++ String.mk [quote]

/-- Comma-separated join, as in Python container `repr`s. -/
def joinComma : List String → String
  | [] => ""
  | [x] => x
  | x :: xs => x ++ ", " ++ joinComma xs

mutual

/-- Python `str(val)`. -/
def pyToString : PyVal → String
  | .none => "None"
  | .bool true => "True"
  | .bool false => "False"
  | .int n => toString n
  | .str s => s
  | .list xs => "[" ++ joinComma (pyReprList xs) ++ "]"
  | .dict kvs => "\x7b" ++ joinComma (pyReprKVs kvs) ++ "\x7d"

/-- Python `repr(val)` (differs from `str` only on strings). -/
def pyRepr : PyVal → String
  | .str s => pyReprStr s
  | .none => "None"
  | .bool true => "True"
  | .bool false => "False"
  | .int n => toString n
  | .list xs => "[" ++ joinComma (pyReprList xs) ++ "]"
  | .dict kvs => "\x7b" ++ joinComma (pyReprKVs kvs) ++ "\x7d"

/-- `repr` of every element of a list. -/
def pyReprList : List PyVal → List String
  | [] => []
  | x :: xs => pyRepr x :: pyReprList xs

/-- `repr` of every `key: value` entry of a dict. -/
def pyReprKVs : List (String × PyVal) → List String
  | [] => []
  | (k, v) :: kvs => (pyReprStr k ++ ": " ++ pyRepr v) :: pyReprKVs kvs

end

/-- Python truthiness (`bool(val)`). -/
def pyTruthy : PyVal → Bool
  | .none => false
  | .bool b => b
  | .int n => n ≠ 0
  | .str s => s ≠ ""
  | .list xs => !xs.isEmpty
  | .dict kvs => !kvs.isEmpty

/-- Dictionary lookup, `d.get(key)` (absent key yields Python `None`). -/
def pyGet (kvs : List (String × PyVal)) (key : String) : PyVal :=
  match kvs.lookup key with
  | some v => v
  | Option.none => PyVal.none

/-- `key in d`. -/
def pyHasKey (kvs : List (String × PyVal)) (key : String) : Bool :=
  (kvs.lookup key).isSome

/-- `helpers._is_true`: `val is True or val == 1 or str(val).lower() == 'true'`
(note that in Python `True == 1`). -/
def _is_true (val : PyVal) : Bool :=
  (match val with | .bool true => true | _ => false)
  || (match val with | .int 1 => true | .bool true => true | _ => false)
  || pyLower (pyToString val) = "true"

/-- `helpers._norm_token`: `str(val).strip().lower()`. -/
def _norm_token (val : PyVal) : String :=
  pyLower (pyStrip (pyToString val))

/-- The `id`/`value`/`text`/`answer` sub-field tokens of a dict-shaped answer
item (`helpers._tokens_from_answer`, dict branch of the final loop). -/
def dictItemTokens (kvs : List (String × PyVal)) : List String :=
  (["id", "value", "text", "answer"].filterMap fun key =>
    match pyGet kvs key with
    | PyVal.none => Option.none
    | v => some (_norm_token v))

/-- Tokens contributed by one raw item of an answer payload. -/
def answerItemTokens : PyVal → List String
  | .none => []
  | .dict kvs => dictItemTokens kvs
  | v => [_norm_token v]

/-- `helpers._tokens_from_answer`: normalize an answer payload into a
comparable token set. -/
def _tokens_from_answer (student_answer : PyVal) : Finset String :=
  match student_answer with
  | .none => ∅
  | .list xs => (xs.flatMap answerItemTokens).toFinset
  | .dict kvs =>
      let truthy_keys := (kvs.filter fun kv => _is_true kv.2).map fun kv => PyVal.str kv.1
      let raw := if !truthy_keys.isEmpty then truthy_keys else kvs.map (·.2)
      (raw.flatMap answerItemTokens).toFinset
  | v => ([v].flatMap answerItemTokens).toFinset

/-! ## Data model (`backend/exams/models.py`) -/

/-- `ExamAttempt.STATUS_CHOICES`. -/
inductive AttemptStatus where
  | in_progress
  | submitted
  | auto_submitted
deriving DecidableEq, Repr

/-- `Question.QUESTION_TYPE_CHOICES`. -/
inductive QuestionType where
  | mcq
  | multiple_mcq
  | descriptive
  | coding
deriving DecidableEq, Repr

/-- `Result.STATUS_CHOICES`. -/
inductive ResultStatus where
  | pending
  | pass
  | fail
deriving DecidableEq, Repr

/-- `Result.GRADING_STATUS_CHOICES`. -/
inductive GradingStatus where
  | pending
  | partially_graded
  | fully_graded
deriving DecidableEq, Repr

/-- The `Exam` model (fields used by the attempt lifecycle; timestamps in
seconds, marks as rationals). -/
structure Exam where
  start_time : Int
  end_time : Int
  total_marks : Rat
  passing_marks : Rat
  is_published : Bool
deriving DecidableEq, Repr

/-- The `Question` model (fields used by grading). `id` is the string form of
the UUID primary key. -/
structure Question where
  id : String
  type : QuestionType
  points : Rat
  options : List PyVal
  correct_answers : List PyVal

/-- The `ExamAttempt` model (per (exam, student) — unique together). -/
structure ExamAttempt where
  start_time : Int
  submit_time : Option Int
  status : AttemptStatus
  total_score : Option Rat
  obtained_score : Option Rat
deriving DecidableEq, Repr

/-- The `Answer` model row, with its related question. -/
structure Answer where
  question : Question
  answer : PyVal
  code : Option PyVal
  score : Option Rat
  feedback : Option String
  evaluated_by : Option String

/-- The `Result` model (fields written by `calculate_exam_result`;
`is_published` is managed by separate staff views and untouched here). -/
structure Result where
  total_marks : Rat
  obtained_marks : Rat
  percentage : Rat
  status : ResultStatus
  grading_status : GradingStatus
  submitted_at : Int
deriving DecidableEq, Repr

/-- The `ExamTimeExtension` model (fields relevant to deadline resolution). -/
structure ExamTimeExtension where
  additional_minutes : Int
deriving DecidableEq, Repr

/-! ## Grading engine (`backend/utils/helpers.py`) -/

/-- The candidate token values of one correct option at index `idx`:
`id`, `value`, `text`, the 0-based index, the 1-based index, and the letter
label `chr(65 + idx)`. -/
def optionCandidateTokens (idx : Nat) (kvs : List (String × PyVal)) : List PyVal :=
  [pyGet kvs "id", pyGet kvs "value", pyGet kvs "text",
   PyVal.int (Int.ofNat idx), PyVal.int (Int.ofNat idx + 1),
   PyVal.str (String.mk [Char.ofNat (65 + idx)])]

/-- `helpers._extract_correct_tokens_from_options`: token set for all options
flagged correct (`isCorrect` or `is_correct`), each in every representation. -/
def _extract_correct_tokens_from_options (question : Question) : Finset String :=
  (question.options.enum.flatMap fun (p : Nat × PyVal) =>
    match p.2 with
    | .dict kvs =>
        if _is_true (pyGet kvs "isCorrect") || _is_true (pyGet kvs "is_correct") then
          (optionCandidateTokens p.1 kvs).filterMap fun t =>
            match t with
            | PyVal.none => Option.none
            | t => if pyStrip (pyToString t) ≠ "" then some (_norm_token t) else Option.none
        else []
    | _ => []).toFinset

/-- `helpers.auto_evaluate_mcq`: auto-evaluate MCQ questions. The `attempt`
argument is unused by the source as well. -/
def auto_evaluate_mcq (_attempt : Option ExamAttempt) (question : Question)
    (student_answer : PyVal) : Rat :=
  if question.type = .mcq then
    let correct_tokens := _extract_correct_tokens_from_options question
    let student_tokens := _tokens_from_answer student_answer
    if correct_tokens ≠ ∅ ∧ correct_tokens ∩ student_tokens ≠ ∅ then question.points
    else 0
  else if question.type = .multiple_mcq then
    let explicit := ((question.correct_answers.filter fun a =>
      pyStrip (pyToString a) ≠ "").map _norm_token).toFinset
    let correct_answers := if explicit ≠ ∅ then explicit
      else _extract_correct_tokens_from_options question
    let student_answers := _tokens_from_answer student_answer
    if correct_answers ≠ ∅ ∧ correct_answers = student_answers then question.points
    else 0
  else 0

/-- `helpers._compute_grading_status`: grading status from which answers still
need manual grading. -/
def _compute_grading_status (answers : List Answer) : GradingStatus :=
  let manual_answers := answers.filter fun a =>
    decide (a.question.type = .descriptive ∨ a.question.type = .coding)
  if manual_answers.isEmpty then .fully_graded
  else
    let graded_count := (manual_answers.filter fun a => a.score.isSome).length
    if graded_count = 0 then .pending
    else if graded_count < manual_answers.length then .partially_graded
    else .fully_graded

/-- The first loop of `helpers.calculate_exam_result`: auto-evaluate MCQ-type
answers and persist the score; manual-type answers are untouched. -/
def autoGradeAnswer (attempt : ExamAttempt) (answer : Answer) : Answer :=
  if answer.question.type = .mcq ∨ answer.question.type = .multiple_mcq then
    { answer with score := some (auto_evaluate_mcq (some attempt) answer.question answer.answer) }
  else answer

/-- `helpers.calculate_exam_result`: auto-grades MCQ answers, sums graded
scores, writes the attempt's score fields and produces the upserted `Result`
row. Returns the updated attempt, the updated answers, and the result. -/
def calculate_exam_result (exam : Exam) (attempt : ExamAttempt)
    (answers : List Answer) (now : Int) : ExamAttempt × List Answer × Result :=
  let answers1 := answers.map (autoGradeAnswer attempt)
  let total_marks := exam.total_marks
  let obtained_marks := answers1.foldl (fun acc a =>
    match a.score with
    | some s => acc + s
    | Option.none => acc) 0
  let attempt1 := { attempt with
    total_score := some total_marks, obtained_score := some obtained_marks }
  let grading_status := _compute_grading_status answers1
  let percentage := if 0 < total_marks then obtained_marks / total_marks * 100 else 0
  let result_status := if grading_status = .fully_graded then
      (if exam.passing_marks ≤ obtained_marks then ResultStatus.pass else ResultStatus.fail)
    else ResultStatus.pending
  let result : Result := {
    total_marks := total_marks
    obtained_marks := obtained_marks
    percentage := percentage
    status := result_status
    grading_status := grading_status
    submitted_at := attempt.submit_time.getD now }
  (attempt1, answers1, result)

/-! ## Deadline resolution (`backend/utils/helpers.py`) -/

/-- `helpers.get_attempt_end_time`: the deadline the code resolves for an
attempt — `attempt.exam.end_time`, the same for every student. (The Python
function receives the attempt and reads its exam; here the exam is passed
directly.) -/
def get_attempt_end_time (exam : Exam) : Int :=
  exam.end_time

/-- `helpers.get_attempt_remaining_time`: remaining seconds against
`get_attempt_end_time`, clamped at 0. -/
def get_attempt_remaining_time (exam : Exam) (now : Int) : Int :=
  let end_time := get_attempt_end_time exam
  if end_time < now then 0 else end_time - now

/-- The deadline as the specification words it (spec §4.1 `resolveDeadline`):
`exam.end_time + extension.additional_minutes` when an active extension exists
for the student, else `exam.end_time` (minutes converted to seconds). This is
the spec-side definition, to be compared with `get_attempt_end_time`. -/
def resolveDeadline_spec (exam : Exam) (extension : Option ExamTimeExtension) : Int :=
  match extension with
  | some e => exam.end_time + 60 * e.additional_minutes
  | Option.none => exam.end_time

/-- Remaining seconds as the specification words it (spec §4.1
`remainingSeconds`): `max(0, deadline - now)`. -/
def remainingSeconds_spec (exam : Exam) (extension : Option ExamTimeExtension)
    (now : Int) : Int :=
  max 0 (resolveDeadline_spec exam extension - now)

/-! ## Answer store (`backend/exams/views.py`) -/

/-- `views._payload_answer_items`: normalize an incoming payload into a list of
answer dicts. -/
def _payload_answer_items (payload : PyVal) : List (List (String × PyVal)) :=
  match payload with
  | .list items => items.filterMap fun item =>
      match item with
      | .dict kvs => some kvs
      | _ => Option.none
  | .dict kvs =>
      (match pyGet kvs "answers" with
       | .list items => items.filterMap fun item =>
           match item with
           | .dict ikvs => some ikvs
           | _ => Option.none
       | _ =>
         if ["question", "questionId", "question_id", "answer", "code"].any
             (fun k => pyHasKey kvs k) then [kvs] else [])
  | _ => []

/-- The question id named by one payload item:
`item.get('question_id') or item.get('questionId') or item.get('question')`
(Python `or` takes the first truthy value; ids are compared as strings). -/
def payloadItemQuestionId (kvs : List (String × PyVal)) : Option String :=
  let candidates := [pyGet kvs "question_id", pyGet kvs "questionId", pyGet kvs "question"]
  match candidates.find? pyTruthy with
  | some v => some (pyToString v)
  | Option.none => Option.none

/-- Apply one payload item to one `Answer` row
(`views._persist_attempt_answers`, loop body after the row lookup). Returns
the updated row and whether any field was written (`update_fields` non-empty).
A `None` answer is normalized to an empty dict; for coding questions a string
`answer` with no `code` key is also written to `code`. -/
def persistItemToAnswer (kvs : List (String × PyVal)) (answer : Answer) :
    Answer × Bool :=
  let has_answer_field := pyHasKey kvs "answer"
  let has_code_field := pyHasKey kvs "code"
  let answer1 := if has_answer_field then
      let normalized_answer := match pyGet kvs "answer" with
        | PyVal.none => PyVal.dict []
        | v => v
      { answer with answer := normalized_answer }
    else answer
  let answer2 := if has_code_field then
      { answer1 with code := match pyGet kvs "code" with
          | PyVal.none => Option.none
          | v => some v }
    else if decide (answer.question.type = .coding) && has_answer_field &&
        (match pyGet kvs "answer" with | .str _ => true | _ => false) then
      { answer1 with code := some (pyGet kvs "answer") }
    else answer1
  (answer2, has_answer_field || has_code_field)

/-- `views._persist_attempt_answers`: upsert a batch of answer payload items
into the attempt's answer rows, keyed by question id; unknown ids are skipped.
Returns the updated rows and the saved count. -/
def _persist_attempt_answers (answers : List Answer) (payload : PyVal) :
    List Answer × Nat :=
  (_payload_answer_items payload).foldl
    (fun (st : List Answer × Nat) kvs =>
      match payloadItemQuestionId kvs with
      | Option.none => st
      | some qid =>
          if (st.1.find? fun a => a.question.id = qid).isSome then
            let rows := st.1.map fun a =>
              if a.question.id = qid then (persistItemToAnswer kvs a).1 else a
            let wrote := match st.1.find? fun a => a.question.id = qid with
              | some a => (persistItemToAnswer kvs a).2
              | Option.none => false
            (rows, if wrote then st.2 + 1 else st.2)
          else st)
    (answers, 0)

/-! ## Attempt state machine (`backend/exams/views.py`) -/

/-- The persisted state of one (exam, student) pair: its single attempt (the
model enforces `unique_together = [exam, student]`), its answer rows and its
single `Result` row. -/
structure AttemptState where
  attempt : ExamAttempt
  answers : List Answer
  result : Option Result

/-- Outcome of `StudentSaveAnswerView.update`. -/
inductive SaveOutcome where
  | attemptNotFound
  | timeExpired
  | invalidPayload
  | saved (saved_count : Nat)
deriving DecidableEq, Repr

/-- `StudentSaveAnswerView.update`: save answers during the exam. The view
selects only the `in_progress` attempt (terminal attempts yield a 404), then
rejects once `now` is past `get_attempt_end_time` plus a 30-second grace
period, then rejects empty payloads, then persists. -/
def student_save_answer_update (exam : Exam) (st : AttemptState) (payload : PyVal)
    (now : Int) : AttemptState × SaveOutcome :=
  if st.attempt.status ≠ .in_progress then (st, .attemptNotFound)
  else
    let end_time := get_attempt_end_time exam
    let grace_period : Int := 30
    if end_time + grace_period < now then (st, .timeExpired)
    else if (_payload_answer_items payload).isEmpty then (st, .invalidPayload)
    else
      let (answers1, saved_count) := _persist_attempt_answers st.answers payload
      ({ st with answers := answers1 }, .saved saved_count)

/-- Outcome of `StudentSubmitExamView.create`. -/
inductive SubmitOutcome where
  | submitted (submittedAt : Int)
  | alreadySubmitted (submittedAt : Option Int)
  | noAttempt
deriving DecidableEq, Repr

/-- `StudentSubmitExamView.create`: submit the exam. An `in_progress` attempt
is finalized (late answers persisted, `submit_time = now`, `status =
submitted`, result recomputed); a terminal attempt is answered with success
and its existing `submit_time`, touching nothing. -/
def student_submit_exam_create (exam : Exam) (st : AttemptState) (payload : PyVal)
    (now : Int) : AttemptState × SubmitOutcome :=
  if st.attempt.status = .in_progress then
    let (answers1, _) := _persist_attempt_answers st.answers payload
    let attempt1 := { st.attempt with submit_time := some now, status := .submitted }
    let (attempt2, answers2, result) := calculate_exam_result exam attempt1 answers1 now
    ({ attempt := attempt2, answers := answers2, result := some result },
      .submitted now)
  else
    (st, .alreadySubmitted st.attempt.submit_time)

/-- Outcome of `StudentStartExamView.create`. -/
inductive StartOutcome where
  | resumed (time_remaining_seconds : Int)
  | timeExpiredAutoSubmitted
  | alreadySubmittedConflict
  | started (time_remaining_seconds : Int)
  | notEligible
deriving DecidableEq, Repr

/-- `StudentStartExamView.create` on an existing attempt for the pair: an
expired `in_progress` attempt is auto-submitted with `submit_time = now` (the
current clock, not the deadline) and the result recomputed; a live one is
resumed; a terminal one is a conflict. -/
def student_start_exam_existing (exam : Exam) (st : AttemptState) (now : Int) :
    AttemptState × StartOutcome :=
  if st.attempt.status = .in_progress then
    let remaining_time := get_attempt_remaining_time exam now
    if remaining_time ≤ 0 ∨ exam.end_time < now then
      let attempt1 := { st.attempt with submit_time := some now, status := .auto_submitted }
      let (attempt2, answers2, result) := calculate_exam_result exam attempt1 st.answers now
      ({ attempt := attempt2, answers := answers2, result := some result },
        .timeExpiredAutoSubmitted)
    else
      (st, .resumed remaining_time)
  else
    (st, .alreadySubmittedConflict)

/-- `StudentStartExamView.create` when no attempt exists for the pair:
eligibility is checked (modelled as the boolean outcome of
`check_exam_eligibility`, whose internals no claim depends on), and on success
the attempt is created `in_progress` with one empty answer per question. -/
def student_start_exam_new (exam : Exam) (questions : List Question)
    (eligible : Bool) (now : Int) : Option AttemptState × StartOutcome :=
  if eligible then
    let attempt : ExamAttempt := {
      start_time := now
      submit_time := Option.none
      status := .in_progress
      total_score := Option.none
      obtained_score := Option.none }
    let answers := questions.map fun q =>
      { question := q, answer := PyVal.dict [], code := Option.none,
        score := Option.none, feedback := Option.none, evaluated_by := Option.none }
    (some { attempt := attempt, answers := answers, result := Option.none },
      .started (get_attempt_remaining_time exam now))
  else
    (Option.none, .notEligible)

/-! ## Staff grading (`StaffEvaluateAnswerView.create`) -/

/-- Outcome of `StaffEvaluateAnswerView.create`. -/
inductive GradeOutcome where
  | answerNotFound
  | negativeScore
  | scoreExceedsMax
  | graded
deriving DecidableEq, Repr

/-- `StaffEvaluateAnswerView.create`: grade one descriptive/coding answer by
question id — validates `0 ≤ score ≤ question.points`, writes score, feedback
and grader, then recomputes the result. The view never filters on attempt
status. -/
def staff_evaluate_answer_create (exam : Exam) (st : AttemptState)
    (question_id : String) (score : Rat) (feedback : String) (grader : String)
    (now : Int) : AttemptState × GradeOutcome :=
  match st.answers.find? fun a => a.question.id = question_id with
  | Option.none => (st, .answerNotFound)
  | some answer =>
      if score < 0 then (st, .negativeScore)
      else if answer.question.points < score then (st, .scoreExceedsMax)
      else
        let answers1 := st.answers.map fun a =>
          if a.question.id = question_id then
            { a with
              score := some score
              feedback := some feedback
              evaluated_by := some grader }
          else a
        let (attempt2, answers2, result) :=
          calculate_exam_result exam st.attempt answers1 now
        ({ attempt := attempt2, answers := answers2, result := some result },
          .graded)

/-! ## Deadline sweep (`backend/exams/tasks.py` and
`backend/exams/management/commands/auto_submit_exams.py`) -/

/-- One row scanned by the sweep: an attempt with its exam, answers and
result. -/
structure SweepRow where
  exam : Exam
  attempt : ExamAttempt
  answers : List Answer
  result : Option Result

/-- Whether the sweep finalizes this row: the loop selects `in_progress`
attempts and acts when `now > get_attempt_end_time(attempt)`. -/
def sweepExpired (now : Int) (row : SweepRow) : Bool :=
  decide (row.attempt.status = .in_progress) && decide (get_attempt_end_time row.exam < now)

/-- Finalize one expired row as both sweep implementations do: set
`status = auto_submitted` and `submit_time = end_time` (the deadline, not
`now`), save, then — when `gradingOk` (no storage error while computing the
result) — recompute the result. The attempt's new status and submit time are
saved before grading in the source, so they persist even when grading fails. -/
def sweepFinalizeRow (now : Int) (gradingOk : Bool) (row : SweepRow) : SweepRow :=
  let end_time := get_attempt_end_time row.exam
  let attempt1 := { row.attempt with status := .auto_submitted, submit_time := some end_time }
  if gradingOk then
    let (attempt2, answers2, result) := calculate_exam_result row.exam attempt1 row.answers now
    { row with attempt := attempt2, answers := answers2, result := some result }
  else
    { row with attempt := attempt1 }

/-- `tasks.auto_submit_expired_exams` (the Celery sweep), in the normal run
where no attempt's grading raises: every expired `in_progress` attempt is
finalized; the others are untouched. -/
def auto_submit_expired_exams (now : Int) (rows : List SweepRow) : List SweepRow :=
  rows.map fun row =>
    if sweepExpired now row then sweepFinalizeRow now true row else row

/-- `tasks.auto_submit_expired_exams` with a failure oracle: `fails i` means
computing the result of the `i`-th row raises (e.g. a transient storage
error). The task body has no per-attempt exception handling, so the exception
propagates and the rows after the failing one are not processed in this run. -/
def auto_submit_expired_exams_failing (fails : Nat → Bool) (now : Int) :
    List SweepRow → List SweepRow :=
  go 0
where
  /-- Sequential processing from index `i`; stops at the first failing row. -/
  go (i : Nat) : List SweepRow → List SweepRow
    | [] => []
    | row :: rest =>
        if sweepExpired now row then
          if fails i then sweepFinalizeRow now false row :: rest
          else sweepFinalizeRow now true row :: go (i + 1) rest
        else row :: go (i + 1) rest

/-- `auto_submit_exams.Command.handle` (the management-command sweep) with a
failure oracle: identical selection and finalization, but
`calculate_exam_result` runs inside a per-attempt `try`, so a failure is
logged and the loop continues with the remaining attempts. -/
def auto_submit_exams_command (fails : Nat → Bool) (now : Int)
    (rows : List SweepRow) : List SweepRow :=
  (rows.enum.map fun (p : Nat × SweepRow) =>
    if sweepExpired now p.2 then sweepFinalizeRow now (!fails p.1) p.2 else p.2)

/-! ## The `Result` table and `update_or_create` -/

/-- `Result.objects.update_or_create(attempt=attempt, defaults=...)` on the
result table, keyed by attempt id: update the existing row for the key when
one exists, otherwise insert a new one. -/
def result_update_or_create (table : List (Nat × Result)) (attempt_id : Nat)
    (r : Result) : List (Nat × Result) :=
  if table.any fun p => p.1 = attempt_id then
    table.map fun p => if p.1 = attempt_id then (p.1, r) else p
  else table ++ [(attempt_id, r)]

/-! ## The exposed operations as one step relation

A world is the list of per-(exam, student) rows; student operations address
one row by its position (standing for the (exam, student) key), the sweep
scans all rows. `start` may append a new row for a pair that has none. -/

/-- One exposed operation (spec §6). -/
inductive Op where
  | startOp (i : Nat) (exam : Exam) (questions : List Question) (eligible : Bool) (now : Int)
  | saveOp (i : Nat) (payload : PyVal) (now : Int)
  | submitOp (i : Nat) (payload : PyVal) (now : Int)
  | gradeOp (i : Nat) (question_id : String) (score : Rat) (feedback : String)
      (grader : String) (now : Int)
  | recomputeOp (i : Nat) (now : Int)
  | sweepOp (now : Int)

/-- Run a per-row view on one row. -/
def applyRow (f : Exam → AttemptState → AttemptState) (row : SweepRow) : SweepRow :=
  let st := f row.exam { attempt := row.attempt, answers := row.answers, result := row.result }
  { row with attempt := st.attempt, answers := st.answers, result := st.result }

/-- Update the `i`-th row of a world with a per-row view, leaving the rest
unchanged (out-of-range indices change nothing). -/
def updateRowAt (rows : List SweepRow) (i : Nat)
    (f : Exam → AttemptState → AttemptState) : List SweepRow :=
  rows.enum.map fun (p : Nat × SweepRow) =>
    if p.1 = i then applyRow f p.2 else p.2

/-- The step function over worlds: each exposed operation, routed to its
embedded view. -/
def step (op : Op) (rows : List SweepRow) : List SweepRow :=
  match op with
  | .startOp i exam questions eligible now =>
      if i < rows.length then
        updateRowAt rows i fun e st => (student_start_exam_existing e st now).1
      else
        match (student_start_exam_new exam questions eligible now).1 with
        | some st => rows ++ [{ exam := exam
                                attempt := st.attempt
                                answers := st.answers
                                result := st.result }]
        | Option.none => rows
  | .saveOp i payload now =>
      updateRowAt rows i fun e st => (student_save_answer_update e st payload now).1
  | .submitOp i payload now =>
      updateRowAt rows i fun e st => (student_submit_exam_create e st payload now).1
  | .gradeOp i qid score feedback grader now =>
      updateRowAt rows i fun e st =>
        (staff_evaluate_answer_create e st qid score feedback grader now).1
  | .recomputeOp i now =>
      updateRowAt rows i fun e st =>
        let (attempt2, answers2, result) := calculate_exam_result e st.attempt st.answers now
        { attempt := attempt2, answers := answers2, result := some result }
  | .sweepOp now => auto_submit_expired_exams now rows

/-! ## Spec-side scoring rules for `multiple_mcq` (for comparison with
`auto_evaluate_mcq`) -/

/-- The `multiple_mcq` scoring rule exactly as the claim words it: the correct
token set is the normalization of the question's explicit `correct_answers`
list when that list is present and non-empty, else the tokens derived from
options flagged correct; full points exactly when the normalized submitted
token set equals this correct set and the correct set is non-empty, else 0. -/
def multiple_mcq_claimed_score (question : Question) (student_answer : PyVal) : Rat :=
  let correct := if !question.correct_answers.isEmpty then
      (question.correct_answers.map _norm_token).toFinset
    else _extract_correct_tokens_from_options question
  let student := _tokens_from_answer student_answer
  if correct ≠ ∅ ∧ correct = student then question.points else 0

/-- The `multiple_mcq` scoring rule with the amended correct-set condition:
the explicit `correct_answers` list is used when it still contains a token
after dropping entries that are blank once stripped (otherwise the
option-derived tokens are used); scoring is unchanged. -/
def multiple_mcq_amended_score (question : Question) (student_answer : PyVal) : Rat :=
  let explicitTokens := ((question.correct_answers.filter fun a =>
      pyStrip (pyToString a) ≠ "").map _norm_token).toFinset
  let correct := if explicitTokens ≠ ∅ then explicitTokens
    else _extract_correct_tokens_from_options question
  let student := _tokens_from_answer student_answer
  if correct ≠ ∅ ∧ correct = student then question.points else 0

/-! ## Concrete fixtures used by the concrete scenarios below -/

/-- A concrete exam ending at time 1000, with `total_marks = 100` and
`passing_marks = 40`. -/
def exam1000 : Exam :=
  { start_time := 0, end_time := 1000, total_marks := 100, passing_marks := 40,
    is_published := true }

/-- A 20-minute time extension (1200 seconds). -/
def ext20 : ExamTimeExtension := { additional_minutes := 20 }

/-- A fresh in-progress attempt started at time 0. -/
def attempt0 : ExamAttempt :=
  { start_time := 0, submit_time := Option.none, status := .in_progress,
    total_score := Option.none, obtained_score := Option.none }

/-- A submitted attempt (terminal), submitted at time 500. -/
def attemptSubmitted500 : ExamAttempt :=
  { start_time := 0, submit_time := some 500, status := .submitted,
    total_score := Option.none, obtained_score := Option.none }

/-- The in-progress attempt of `attempt0` as a sweep row of `exam1000`, with
no answers yet. -/
def row0 : SweepRow :=
  { exam := exam1000, attempt := attempt0, answers := [], result := Option.none }

/-- A second independent expired in-progress row (same shape as `row0`). -/
def row1 : SweepRow :=
  { exam := exam1000, attempt := { attempt0 with start_time := 10 },
    answers := [], result := Option.none }

/-- The `multiple_mcq` question of the C6 scenario: `points = 5`, one option
flagged correct with text `"yes"`, and `correct_answers = [" "]` (present and
non-empty as a list, but blank after normalization). -/
def questionBlankExplicit : Question :=
  { id := "q1"
    type := .multiple_mcq
    points := 5
    options := [PyVal.dict [("text", PyVal.str "yes"), ("isCorrect", PyVal.bool true)]]
    correct_answers := [PyVal.str " "] }

/-- A submitted answer hitting every representation of the correct option of
`questionBlankExplicit`. -/
def answerAllTokens : PyVal :=
  PyVal.list [PyVal.str "yes", PyVal.str "0", PyVal.str "1", PyVal.str "a"]

/-! ## Helper lemmas -/

/-- `calculate_exam_result` never changes the attempt's status. -/
theorem calculate_exam_result_status (exam : Exam) (attempt : ExamAttempt)
    (answers : List Answer) (now : Int) :
    (calculate_exam_result exam attempt answers now).1.status = attempt.status := rfl

/-- `calculate_exam_result` never changes the attempt's submit time. -/
theorem calculate_exam_result_submit_time (exam : Exam) (attempt : ExamAttempt)
    (answers : List Answer) (now : Int) :
    (calculate_exam_result exam attempt answers now).1.submit_time = attempt.submit_time := rfl

/-- `auto_evaluate_mcq` does not depend on its (unused) attempt argument. -/
theorem auto_evaluate_mcq_attempt_irrel (a b : Option ExamAttempt)
    (question : Question) (student_answer : PyVal) :
    auto_evaluate_mcq a question student_answer =
    auto_evaluate_mcq b question student_answer := rfl

/-- Auto-grading an already auto-graded answer row changes nothing (the score
is recomputed from the unchanged question and answer payload). -/
theorem autoGradeAnswer_idempotent (a b : ExamAttempt) (answer : Answer) :
    autoGradeAnswer b (autoGradeAnswer a answer) = autoGradeAnswer a answer := by
  unfold autoGradeAnswer
  by_cases h : answer.question.type = .mcq ∨ answer.question.type = .multiple_mcq
  · simp only [h, if_pos]
    exact congrArg (fun s => { answer with score := some s })
      (auto_evaluate_mcq_attempt_irrel (some b) (some a) answer.question answer.answer)
  · simp [h]

/-- Auto-grading a list of answers is idempotent. -/
theorem autoGrade_map_idempotent (a b : ExamAttempt) (answers : List Answer) :
    (answers.map (autoGradeAnswer a)).map (autoGradeAnswer b) =
    answers.map (autoGradeAnswer a) := by
  rw [List.map_map]
  exact List.map_congr_left fun x _ => autoGradeAnswer_idempotent a b x

/-! ## Claim theorems -/

/-- C1: the claim says the resolved attempt deadline is `exam.end_time` plus
the extension's `additional_minutes` when an active extension exists, and
that remaining time is computed against this resolved deadline. The code's
resolver `get_attempt_end_time` returns `exam.end_time` unconditionally: for
`exam1000` (deadline 1000) with an active 20-minute extension, the claimed
deadline is 2200 but the code resolves 1000, and at time 1600 the code
reports 0 remaining seconds where the claimed deadline still has 600. This
matches the failing regression test
`tests_regressions.test_time_extension_is_applied_on_start`. -/
theorem C1_deadline_ignores_extension :
    get_attempt_end_time exam1000 = 1000 ∧
    resolveDeadline_spec exam1000 (some ext20) = 2200 ∧
    get_attempt_end_time exam1000 ≠ resolveDeadline_spec exam1000 (some ext20) ∧
    get_attempt_remaining_time exam1000 1600 = 0 ∧
    remainingSeconds_spec exam1000 (some ext20) 1600 = 600 := by
  refine ⟨rfl, rfl, by decide, by decide, by decide⟩

/-- C2: the claim says the sweep finalizes exactly the in-progress attempts
whose resolved deadline including any extension is past, with `submit_time`
equal to that deadline. The code's sweep resolves the deadline through
`get_attempt_end_time`, which ignores extensions: with a 20-minute extension
active for `row0`'s student the claimed deadline 2200 has not passed at time
1600, yet one run of `auto_submit_expired_exams` already auto-submits the
attempt, recording `submit_time = 1000` (`exam.end_time`, also not the
claimed deadline) and recomputing its Result. -/
theorem C2_sweep_ignores_extension :
    1600 < resolveDeadline_spec exam1000 (some ext20) ∧
    ((auto_submit_expired_exams 1600 [row0]).map fun r =>
        (r.attempt.status, r.attempt.submit_time)) =
      [(AttemptStatus.auto_submitted, some 1000)] ∧
    ((auto_submit_expired_exams 1600 [row0]).map fun r => r.result) =
      [some (calculate_exam_result exam1000
        { attempt0 with
          status := .auto_submitted
          submit_time := some (get_attempt_end_time exam1000) } [] 1600).2.2] := by
  refine ⟨by decide, by decide, rfl⟩

/-- C6 counterexample: for `questionBlankExplicit`, whose `correct_answers`
list is present and non-empty but normalizes to a blank token, the code falls
back to the option-derived token set and awards full points to
`answerAllTokens`, while the claim's rule keeps the normalized explicit list
as the correct set and awards 0. -/
theorem C6_counterexample :
    auto_evaluate_mcq Option.none questionBlankExplicit answerAllTokens = 5 ∧
    multiple_mcq_claimed_score questionBlankExplicit answerAllTokens = 0 ∧
    auto_evaluate_mcq Option.none questionBlankExplicit answerAllTokens ≠
      multiple_mcq_claimed_score questionBlankExplicit answerAllTokens := by
  refine ⟨by decide, by decide, by decide⟩

/-- C6 (amended): for every `multiple_mcq` question, `auto_evaluate_mcq`
computes exactly the amended rule — the explicit `correct_answers` list is
used when it still contains a token after dropping blank entries, else the
option-derived tokens; full points exactly on set equality with a non-empty
correct set, zero otherwise (no partial credit). -/
theorem C6_multiple_mcq_scoring (id : String) (points : Rat)
    (options correct_answers : List PyVal) (attempt : Option ExamAttempt)
    (student_answer : PyVal) :
    auto_evaluate_mcq attempt
      ⟨id, .multiple_mcq, points, options, correct_answers⟩ student_answer =
    multiple_mcq_amended_score
      ⟨id, .multiple_mcq, points, options, correct_answers⟩ student_answer := by
  rfl

/-- A concrete `Result` row used as upsert payload in concrete scenarios. -/
def resultPending : Result :=
  { total_marks := 100, obtained_marks := 0, percentage := 0,
    status := .pending, grading_status := .pending, submitted_at := 0 }

/-- C4 counterexample: for an attempt whose `submit_time` is still null (the
grading views recompute results of in-progress attempts too), two successive
`calculate_exam_result` calls with no intervening answer change, at clock
times 0 and 5, record `submitted_at = 0` and then `submitted_at = 5` — the
two Results do not have identical field values. -/
theorem C4_counterexample :
    (calculate_exam_result exam1000 attempt0 [] 0).2.2.submitted_at = 0 ∧
    (calculate_exam_result exam1000 (calculate_exam_result exam1000 attempt0 [] 0).1
      (calculate_exam_result exam1000 attempt0 [] 0).2.1 5).2.2.submitted_at = 5 ∧
    (calculate_exam_result exam1000 (calculate_exam_result exam1000 attempt0 [] 0).1
      (calculate_exam_result exam1000 attempt0 [] 0).2.1 5).2.2 ≠
      (calculate_exam_result exam1000 attempt0 [] 0).2.2 := by
  refine ⟨by decide, by decide, fun h => ?_⟩
  have h2 := congrArg Result.submitted_at h
  revert h2
  decide

/-- C4 (amended): `calculate_exam_result` is idempotent on Result fields for
every attempt whose `submit_time` is set — a second call with no intervening
answer change, at any later clock time, produces a Result with identical
field values (when `submit_time` is null, the `submitted_at` field instead
takes each call's clock value). Independently, the upsert keyed by attempt
(`update_or_create`) never leaves more than one Result row per attempt. -/
theorem C4_recompute_idempotent :
    (∀ (exam : Exam) (attempt : ExamAttempt) (t : Int) (answers : List Answer)
      (now1 now2 : Int),
      (calculate_exam_result exam
        (calculate_exam_result exam { attempt with submit_time := some t } answers now1).1
        (calculate_exam_result exam { attempt with submit_time := some t } answers now1).2.1
        now2).2.2 =
      (calculate_exam_result exam { attempt with submit_time := some t } answers now1).2.2) ∧
    (∀ (table : List (Nat × Result)) (attempt_id : Nat) (r : Result),
      (table.countP fun p => decide (p.1 = attempt_id)) ≤ 1 →
      ((result_update_or_create table attempt_id r).countP
        fun p => decide (p.1 = attempt_id)) ≤ 1) := by
  constructor
  · intro exam attempt t answers now1 now2
    have hstep : (calculate_exam_result exam
        (calculate_exam_result exam { attempt with submit_time := some t } answers now1).1
        (calculate_exam_result exam { attempt with submit_time := some t } answers now1).2.1
        now2).2.2 =
      (calculate_exam_result exam { attempt with submit_time := some t }
        (answers.map (autoGradeAnswer { attempt with submit_time := some t })) now2).2.2 := rfl
    rw [hstep]
    have hmap := autoGrade_map_idempotent { attempt with submit_time := some t }
      { attempt with submit_time := some t } answers
    simp only [calculate_exam_result, hmap, Option.getD_some]
  · intro table attempt_id r h
    unfold result_update_or_create
    by_cases hex : table.any fun p => p.1 = attempt_id
    · rw [if_pos hex]
      have hcount : ((table.map fun p => if p.1 = attempt_id then (p.1, r) else p).countP
          fun p => decide (p.1 = attempt_id)) =
          table.countP fun p => decide (p.1 = attempt_id) := by
        rw [List.countP_map]
        apply List.countP_congr
        intro p _
        by_cases hp : p.1 = attempt_id
        · simp [hp]
        · simp [hp]
      rw [hcount]; exact h
    · rw [if_neg hex]
      rw [List.countP_append]
      have h0 : (table.countP fun p => decide (p.1 = attempt_id)) = 0 := by
        rw [List.countP_eq_zero]
        intro p hp
        simp only [List.any_eq_true] at hex
        push_neg at hex
        simpa using hex p hp
      simp [h0]

/-- C4 witness: the idempotency at a concrete attempt with `submit_time = 7`,
and the upsert on a one-row table keeping a single row for the key. -/
theorem C4_recompute_idempotent_witness :
    ((calculate_exam_result exam1000
      (calculate_exam_result exam1000 { attempt0 with submit_time := some 7 } [] 0).1
      (calculate_exam_result exam1000 { attempt0 with submit_time := some 7 } [] 0).2.1
      5).2.2 =
    (calculate_exam_result exam1000 { attempt0 with submit_time := some 7 } [] 0).2.2) ∧
    ((result_update_or_create [(0, resultPending)] 0 resultPending).countP
      fun p => decide (p.1 = 0)) ≤ 1 :=
  ⟨C4_recompute_idempotent.1 exam1000 attempt0 7 [] 0 5,
   C4_recompute_idempotent.2 [(0, resultPending)] 0 resultPending (by decide)⟩

/-- C5: on every Result produced by `calculate_exam_result`, when
`grading_status` is `fully_graded` the status is `pass` exactly when
`obtained_marks ≥ exam.passing_marks` and `fail` otherwise; when
`grading_status` is not `fully_graded` the status is `pending`. -/
theorem C5_result_status_rule (exam : Exam) (attempt : ExamAttempt)
    (answers : List Answer) (now : Int) :
    ((calculate_exam_result exam attempt answers now).2.2.grading_status = .fully_graded →
      ((calculate_exam_result exam attempt answers now).2.2.status = .pass ↔
        exam.passing_marks ≤ (calculate_exam_result exam attempt answers now).2.2.obtained_marks) ∧
      ((calculate_exam_result exam attempt answers now).2.2.status = .fail ↔
        ¬ exam.passing_marks ≤ (calculate_exam_result exam attempt answers now).2.2.obtained_marks)) ∧
    ((calculate_exam_result exam attempt answers now).2.2.grading_status ≠ .fully_graded →
      (calculate_exam_result exam attempt answers now).2.2.status = .pending) := by
  have hst : (calculate_exam_result exam attempt answers now).2.2.status =
      (if (calculate_exam_result exam attempt answers now).2.2.grading_status = .fully_graded then
        (if exam.passing_marks ≤ (calculate_exam_result exam attempt answers now).2.2.obtained_marks
          then ResultStatus.pass else ResultStatus.fail)
      else ResultStatus.pending) := rfl
  constructor
  · intro hfull
    rw [hst, if_pos hfull]
    by_cases hp : exam.passing_marks ≤
        (calculate_exam_result exam attempt answers now).2.2.obtained_marks
    · rw [if_pos hp]
      exact ⟨⟨fun _ => hp, fun _ => rfl⟩, by simp [hp]⟩
    · rw [if_neg hp]
      constructor
      · constructor
        · intro h; exact absurd h (by simp)
        · intro h; exact absurd h hp
      · exact ⟨fun _ => hp, fun _ => rfl⟩
  · intro hnot
    rw [hst, if_neg hnot]

/-- C5 witness: an exam with no manual answers is fully graded, and with
`obtained_marks = 0 < passing_marks = 40` the status is `fail`. -/
theorem C5_result_status_rule_witness :
    (calculate_exam_result exam1000 attempt0 [] 0).2.2.status = ResultStatus.fail := by
  have h := (C5_result_status_rule exam1000 attempt0 [] 0).1 (by decide)
  exact h.2.mpr (by decide)

/-! ## Further helper lemmas on the views -/

/-- The save view leaves the state untouched and reports no active attempt
when the attempt is terminal. -/
theorem student_save_answer_update_terminal (exam : Exam) (st : AttemptState)
    (payload : PyVal) (now : Int) (h : st.attempt.status ≠ .in_progress) :
    student_save_answer_update exam st payload now = (st, .attemptNotFound) := by
  unfold student_save_answer_update
  rw [if_pos h]

/-- The submit view leaves the state untouched and reports success with the
stored submit time when the attempt is terminal. -/
theorem student_submit_exam_create_terminal (exam : Exam) (st : AttemptState)
    (payload : PyVal) (now : Int) (h : st.attempt.status ≠ .in_progress) :
    student_submit_exam_create exam st payload now =
      (st, .alreadySubmitted st.attempt.submit_time) := by
  unfold student_submit_exam_create
  rw [if_neg h]

/-- The start view answers a conflict, touching nothing, when the attempt is
terminal. -/
theorem student_start_exam_existing_terminal (exam : Exam) (st : AttemptState)
    (now : Int) (h : st.attempt.status ≠ .in_progress) :
    student_start_exam_existing exam st now = (st, .alreadySubmittedConflict) := by
  unfold student_start_exam_existing
  rw [if_neg h]

/-- The grading view never changes the attempt's status. -/
theorem staff_evaluate_answer_create_status (exam : Exam) (st : AttemptState)
    (question_id : String) (score : Rat) (feedback grader : String) (now : Int) :
    (staff_evaluate_answer_create exam st question_id score feedback grader now).1.attempt.status =
      st.attempt.status := by
  unfold staff_evaluate_answer_create
  cases hfind : st.answers.find? fun a => a.question.id = question_id with
  | none => rfl
  | some answer =>
      by_cases hneg : score < 0
      · simp [hneg]
      · by_cases hmax : answer.question.points < score
        · simp [hneg, hmax]
        · simp [hneg, hmax, calculate_exam_result_status]

/-- `sweepFinalizeRow` always ends with an auto-submitted attempt. -/
theorem sweepFinalizeRow_status (now : Int) (ok : Bool) (row : SweepRow) :
    (sweepFinalizeRow now ok row).attempt.status = .auto_submitted := by
  cases ok <;> simp [sweepFinalizeRow, calculate_exam_result_status]

/-- `sweepFinalizeRow` always records the deadline as the submit time. -/
theorem sweepFinalizeRow_submit_time (now : Int) (ok : Bool) (row : SweepRow) :
    (sweepFinalizeRow now ok row).attempt.submit_time =
      some (get_attempt_end_time row.exam) := by
  cases ok <;> simp [sweepFinalizeRow, calculate_exam_result_submit_time]

/-- When grading succeeds, `sweepFinalizeRow` stores the recomputed result. -/
theorem sweepFinalizeRow_result_ok (now : Int) (row : SweepRow) :
    (sweepFinalizeRow now true row).result =
      some (calculate_exam_result row.exam
        { row.attempt with
          status := .auto_submitted
          submit_time := some (get_attempt_end_time row.exam) } row.answers now).2.2 := rfl

/-- When grading fails, `sweepFinalizeRow` leaves the stored result alone. -/
theorem sweepFinalizeRow_result_fail (now : Int) (row : SweepRow) :
    (sweepFinalizeRow now false row).result = row.result := rfl

/-- Element view of the management-command sweep. -/
theorem auto_submit_exams_command_get? (fails : Nat → Bool) (now : Int)
    (rows : List SweepRow) (i : Nat) :
    (auto_submit_exams_command fails now rows).get? i =
      (rows.get? i).map fun row =>
        if sweepExpired now row then sweepFinalizeRow now (!fails i) row else row := by
  unfold auto_submit_exams_command
  rw [List.get?_map, List.get?_enum]
  cases rows.get? i <;> rfl

/-- Element view of the (error-free) Celery sweep. -/
theorem auto_submit_expired_exams_get? (now : Int) (rows : List SweepRow) (i : Nat) :
    (auto_submit_expired_exams now rows).get? i =
      (rows.get? i).map fun row =>
        if sweepExpired now row then sweepFinalizeRow now true row else row := by
  unfold auto_submit_expired_exams
  rw [List.get?_map]

/-- Element view of `updateRowAt`. -/
theorem updateRowAt_get? (rows : List SweepRow) (j : Nat)
    (f : Exam → AttemptState → AttemptState) (i : Nat) :
    (updateRowAt rows j f).get? i =
      (rows.get? i).map fun r => if i = j then applyRow f r else r := by
  unfold updateRowAt
  rw [List.get?_map, List.get?_enum]
  cases rows.get? i <;> rfl

/-- C3 counterexample: with two expired in-progress attempts and grading of
the first raising (failure oracle `i == 0`), one run of the Celery sweep
`auto_submit_expired_exams` leaves the second attempt unprocessed (still
`in_progress` — the exception aborts the loop) and has already marked the
failing attempt `auto_submitted` with no Result (so it does not remain
`in_progress` and is not retried: the next sweep only selects `in_progress`
attempts). Both outcomes contradict the claim. -/
theorem C3_counterexample :
    ((auto_submit_expired_exams_failing (fun i => i == 0) 1600 [row0, row1]).map fun r =>
        (r.attempt.status, r.result.isSome)) =
      [(AttemptStatus.auto_submitted, false), (AttemptStatus.in_progress, false)] ∧
    sweepExpired 1600 row1 = true := by
  refine ⟨by decide, by decide⟩

/-- C3 (amended): in the management-command sweep a grading failure for one
attempt does not stop the others — every expired in-progress attempt is
finalized (status `auto_submitted`, `submit_time` = its deadline) no matter
which attempts' grading fails, with the Result recomputed exactly when its
own grading succeeded; the failing attempt has already been saved as
`auto_submitted` (it does not remain `in_progress`, so the next cycle will
not retry it). The Celery sweep, by contrast, stops at the first failure
(see the counterexample). -/
theorem C3_command_sweep_isolates_failures (fails : Nat → Bool) (now : Int)
    (rows : List SweepRow) (i : Nat) (h : i < rows.length)
    (hexp : sweepExpired now (rows.get ⟨i, h⟩) = true) :
    ∃ r', (auto_submit_exams_command fails now rows).get? i = some r' ∧
      r'.attempt.status = .auto_submitted ∧
      r'.attempt.submit_time = some (get_attempt_end_time (rows.get ⟨i, h⟩).exam) ∧
      (fails i = false →
        r'.result = some (calculate_exam_result (rows.get ⟨i, h⟩).exam
          { (rows.get ⟨i, h⟩).attempt with
            status := .auto_submitted
            submit_time := some (get_attempt_end_time (rows.get ⟨i, h⟩).exam) }
          (rows.get ⟨i, h⟩).answers now).2.2) ∧
      (fails i = true → r'.result = (rows.get ⟨i, h⟩).result) := by
  refine ⟨sweepFinalizeRow now (!fails i) (rows.get ⟨i, h⟩), ?_, ?_, ?_, ?_, ?_⟩
  · rw [auto_submit_exams_command_get?, List.get?_eq_get h]
    have hexp2 : sweepExpired now rows[i] = true := hexp
    simp [hexp2]
  · exact sweepFinalizeRow_status now (!fails i) (rows.get ⟨i, h⟩)
  · exact sweepFinalizeRow_submit_time now (!fails i) (rows.get ⟨i, h⟩)
  · intro hf
    rw [hf]
    exact sweepFinalizeRow_result_ok now (rows.get ⟨i, h⟩)
  · intro hf
    rw [hf]
    exact sweepFinalizeRow_result_fail now (rows.get ⟨i, h⟩)

/-- C3 witness: in a command-sweep run where grading of the first attempt
fails, the second expired attempt is still finalized. -/
theorem C3_command_sweep_witness :
    ∃ r', (auto_submit_exams_command (fun i => i == 0) 1600 [row0, row1]).get? 1 = some r' ∧
      r'.attempt.status = .auto_submitted ∧
      r'.attempt.submit_time = some (get_attempt_end_time ([row0, row1].get ⟨1, by decide⟩).exam) ∧
      ((fun i => i == 0) 1 = false →
        r'.result = some (calculate_exam_result ([row0, row1].get ⟨1, by decide⟩).exam
          { ([row0, row1].get ⟨1, by decide⟩).attempt with
            status := .auto_submitted
            submit_time := some (get_attempt_end_time ([row0, row1].get ⟨1, by decide⟩).exam) }
          ([row0, row1].get ⟨1, by decide⟩).answers 1600).2.2) ∧
      ((fun i => i == 0) 1 = true → r'.result = ([row0, row1].get ⟨1, by decide⟩).result) :=
  C3_command_sweep_isolates_failures (fun i => i == 0) 1600 [row0, row1] 1 (by decide) (by decide)

/-- An `AttemptState` with a fresh in-progress attempt and no answer rows. -/
def stInProgress : AttemptState :=
  { attempt := attempt0, answers := [], result := Option.none }

/-- An `AttemptState` whose attempt was submitted at time 500. -/
def stTerminal : AttemptState :=
  { attempt := attemptSubmitted500, answers := [], result := Option.none }

/-- A well-formed single-answer save payload addressing question `"q1"`. -/
def payloadQ1 : PyVal :=
  PyVal.list [PyVal.dict [("question_id", PyVal.str "q1"), ("answer", PyVal.str "x")]]

/-- C7: a save succeeds only while `now` is at most the attempt's deadline
(`get_attempt_end_time`) plus the 30-second grace period; past that it is
rejected with the deadline-expired error and the state untouched; a terminal
attempt is never saved to (the view selects only `in_progress` attempts);
and within the window, an in-progress attempt with a non-empty payload is
saved. -/
theorem C7_save_window (exam : Exam) (st : AttemptState) (payload : PyVal)
    (now : Int) :
    (∀ n, (student_save_answer_update exam st payload now).2 = .saved n →
      now ≤ get_attempt_end_time exam + 30) ∧
    (st.attempt.status = .in_progress → get_attempt_end_time exam + 30 < now →
      student_save_answer_update exam st payload now = (st, .timeExpired)) ∧
    (st.attempt.status ≠ .in_progress →
      student_save_answer_update exam st payload now = (st, .attemptNotFound)) ∧
    (st.attempt.status = .in_progress → now ≤ get_attempt_end_time exam + 30 →
      (_payload_answer_items payload).isEmpty = false →
      student_save_answer_update exam st payload now =
        ({ st with answers := (_persist_attempt_answers st.answers payload).1 },
          .saved (_persist_attempt_answers st.answers payload).2)) := by
  refine ⟨?_, ?_, ?_, ?_⟩
  · intro n hn
    by_contra hlate
    push_neg at hlate
    unfold student_save_answer_update at hn
    by_cases hterm : st.attempt.status ≠ .in_progress
    · rw [if_pos hterm] at hn; cases hn
    · rw [if_neg hterm, if_pos hlate] at hn; cases hn
  · intro hin hlate
    unfold student_save_answer_update
    rw [if_neg (by simp [hin]), if_pos hlate]
  · exact student_save_answer_update_terminal exam st payload now
  · intro hin htime hitems
    unfold student_save_answer_update
    rw [if_neg (by simp [hin]), if_neg (by omega), if_neg (by simp [hitems])]

/-- C7 witness: the expired rejection, the terminal 404, and a successful
in-window save at concrete inputs. -/
theorem C7_save_window_witness :
    student_save_answer_update exam1000 stInProgress payloadQ1 2000 =
      (stInProgress, .timeExpired) ∧
    student_save_answer_update exam1000 stTerminal payloadQ1 100 =
      (stTerminal, .attemptNotFound) ∧
    student_save_answer_update exam1000 stInProgress payloadQ1 100 =
      ({ stInProgress with
          answers := (_persist_attempt_answers stInProgress.answers payloadQ1).1 },
        .saved (_persist_attempt_answers stInProgress.answers payloadQ1).2) :=
  ⟨(C7_save_window exam1000 stInProgress payloadQ1 2000).2.1 (by decide) (by decide),
   (C7_save_window exam1000 stTerminal payloadQ1 100).2.2.1 (by decide),
   (C7_save_window exam1000 stInProgress payloadQ1 100).2.2.2 (by decide) (by decide) (by decide)⟩

/-- C8: a submit on a terminal attempt returns success with the stored
`submit_time` and changes nothing; and after a first submit of an in-progress
attempt at time `now`, a second submit at any time `now2` returns success
with the same `submit_time = now` and leaves the whole state (attempt,
answers, single Result) exactly as the first submit left it. -/
theorem C8_submit_idempotent (exam : Exam) (st : AttemptState)
    (payload payload2 : PyVal) (now now2 : Int) :
    (st.attempt.status ≠ .in_progress →
      student_submit_exam_create exam st payload now =
        (st, .alreadySubmitted st.attempt.submit_time)) ∧
    (st.attempt.status = .in_progress →
      (student_submit_exam_create exam st payload now).2 = .submitted now ∧
      student_submit_exam_create exam
          (student_submit_exam_create exam st payload now).1 payload2 now2 =
        ((student_submit_exam_create exam st payload now).1,
          .alreadySubmitted (some now))) := by
  refine ⟨student_submit_exam_create_terminal exam st payload now, ?_⟩
  intro hin
  have hfirst : (student_submit_exam_create exam st payload now).2 = .submitted now := by
    unfold student_submit_exam_create
    rw [if_pos hin]
  refine ⟨hfirst, ?_⟩
  have hstatus : (student_submit_exam_create exam st payload now).1.attempt.status =
      .submitted := by
    unfold student_submit_exam_create
    rw [if_pos hin]
    exact calculate_exam_result_status exam _ _ now
  have htime : (student_submit_exam_create exam st payload now).1.attempt.submit_time =
      some now := by
    unfold student_submit_exam_create
    rw [if_pos hin]
    exact calculate_exam_result_submit_time exam _ _ now
  rw [student_submit_exam_create_terminal exam _ payload2 now2 (by rw [hstatus]; decide),
    htime]

/-- C8 witness: the double-submit scenario at concrete inputs — the second
call returns the first call's submit time and changes nothing. -/
theorem C8_submit_idempotent_witness :
    (student_submit_exam_create exam1000 stInProgress payloadQ1 600).2 =
      .submitted 600 ∧
    student_submit_exam_create exam1000
        (student_submit_exam_create exam1000 stInProgress payloadQ1 600).1
        (PyVal.dict []) 601 =
      ((student_submit_exam_create exam1000 stInProgress payloadQ1 600).1,
        .alreadySubmitted (some 600)) :=
  (C8_submit_idempotent exam1000 stInProgress payloadQ1 (PyVal.dict []) 600 601).2
    (by decide)

/-- `applyRow` preserves the attempt status whenever the per-row view does. -/
theorem applyRow_status (f : Exam → AttemptState → AttemptState) (row : SweepRow)
    (hf : ∀ e st, st.attempt.status ≠ .in_progress → (f e st).attempt.status = st.attempt.status)
    (h : row.attempt.status ≠ .in_progress) :
    (applyRow f row).attempt.status = row.attempt.status := by
  unfold applyRow
  exact hf _ _ h


/-- A terminal attempt row. -/
def rowTerminal : SweepRow :=
  { exam := exam1000, attempt := attemptSubmitted500, answers := [], result := Option.none }

/-- C9: under every exposed operation (start, save, submit, grade answer,
recompute, deadline sweep), an attempt whose status is terminal (`submitted`
or `auto_submitted`, i.e. not `in_progress`) keeps exactly that status: no
operation returns it to `in_progress` or flips it to the other terminal
value, because every status-changing path selects only `in_progress`
attempts. -/
theorem C9_terminal_never_reverts (op : Op) (rows : List SweepRow) (i : Nat)
    (h : i < rows.length) (hterm : (rows.get ⟨i, h⟩).attempt.status ≠ .in_progress) :
    ((step op rows).get? i).map (fun r => r.attempt.status) =
      some (rows.get ⟨i, h⟩).attempt.status := by
  have hget : rows.get? i = some (rows.get ⟨i, h⟩) := List.get?_eq_get h
  cases op with
  | startOp j exam questions eligible now =>
      simp only [step]
      by_cases hj : j < rows.length
      · rw [if_pos hj, updateRowAt_get?, hget]
        simp only [Option.map_some']
        by_cases hij : i = j
        · rw [if_pos hij]
          exact congrArg some (applyRow_status _ _
            (fun e st hst => by rw [student_start_exam_existing_terminal e st now hst]) hterm)
        · rw [if_neg hij]
      · rw [if_neg hj]
        cases hnew : (student_start_exam_new exam questions eligible now).1 with
        | none => rw [hget]; rfl
        | some stn => rw [List.get?_append h, hget]; rfl
  | saveOp j payload now =>
      simp only [step]
      rw [updateRowAt_get?, hget]
      simp only [Option.map_some']
      by_cases hij : i = j
      · rw [if_pos hij]
        exact congrArg some (applyRow_status _ _
          (fun e st hst => by rw [student_save_answer_update_terminal e st payload now hst]) hterm)
      · rw [if_neg hij]
  | submitOp j payload now =>
      simp only [step]
      rw [updateRowAt_get?, hget]
      simp only [Option.map_some']
      by_cases hij : i = j
      · rw [if_pos hij]
        exact congrArg some (applyRow_status _ _
          (fun e st hst => by rw [student_submit_exam_create_terminal e st payload now hst]) hterm)
      · rw [if_neg hij]
  | gradeOp j qid score feedback grader now =>
      simp only [step]
      rw [updateRowAt_get?, hget]
      simp only [Option.map_some']
      by_cases hij : i = j
      · rw [if_pos hij]
        exact congrArg some (applyRow_status _ _
          (fun e st _ => staff_evaluate_answer_create_status e st qid score feedback grader now) hterm)
      · rw [if_neg hij]
  | recomputeOp j now =>
      simp only [step]
      rw [updateRowAt_get?, hget]
      simp only [Option.map_some']
      by_cases hij : i = j
      · rw [if_pos hij]
        exact congrArg some (applyRow_status _ _
          (fun e st _ => calculate_exam_result_status e st.attempt st.answers now) hterm)
      · rw [if_neg hij]
  | sweepOp now =>
      simp only [step]
      rw [auto_submit_expired_exams_get?, hget]
      simp only [Option.map_some']
      have hexp : sweepExpired now (rows.get ⟨i, h⟩) = false := by
        unfold sweepExpired
        rw [decide_eq_false hterm]
        rfl
      rw [if_neg (by rw [hexp]; decide)]

/-- C9 witness: a submit against an already-submitted attempt leaves its
status `submitted`. -/
theorem C9_terminal_never_reverts_witness :
    ((step (Op.submitOp 0 (PyVal.dict []) 700) [rowTerminal]).get? 0).map
        (fun r => r.attempt.status) =
      some ([rowTerminal].get ⟨0, by decide⟩).attempt.status :=
  C9_terminal_never_reverts (Op.submitOp 0 (PyVal.dict []) 700) [rowTerminal] 0
    (by decide) (by decide)

/-- C10: when `start` finds an existing in-progress attempt whose deadline
has passed, it finalizes it with status `auto_submitted` and `submit_time =
now` (the current clock, not the deadline), recomputes the Result, and
returns the expiry error; the sweep finalizing the same attempt would record
`submit_time = get_attempt_end_time exam` instead, which is strictly earlier
than `now` — so the start path records a strictly later submit time. -/
theorem C10_start_expired_records_now (exam : Exam) (st : AttemptState)
    (now : Int) (hin : st.attempt.status = .in_progress)
    (hexp : exam.end_time < now) :
    (student_start_exam_existing exam st now).2 = .timeExpiredAutoSubmitted ∧
    (student_start_exam_existing exam st now).1.attempt.status = .auto_submitted ∧
    (student_start_exam_existing exam st now).1.attempt.submit_time = some now ∧
    (student_start_exam_existing exam st now).1.result =
      some (calculate_exam_result exam
        { st.attempt with submit_time := some now, status := .auto_submitted }
        st.answers now).2.2 ∧
    ((auto_submit_expired_exams now [⟨exam, st.attempt, st.answers, st.result⟩]).map
        fun r => r.attempt.submit_time) = [some (get_attempt_end_time exam)] ∧
    get_attempt_end_time exam < now := by
  have hquick : student_start_exam_existing exam st now =
      ({ attempt := (calculate_exam_result exam
            { st.attempt with submit_time := some now, status := .auto_submitted }
            st.answers now).1
         answers := (calculate_exam_result exam
            { st.attempt with submit_time := some now, status := .auto_submitted }
            st.answers now).2.1
         result := some (calculate_exam_result exam
            { st.attempt with submit_time := some now, status := .auto_submitted }
            st.answers now).2.2 }, .timeExpiredAutoSubmitted) := by
    unfold student_start_exam_existing
    rw [if_pos hin, if_pos (Or.inr hexp)]
  have hrow : sweepExpired now ⟨exam, st.attempt, st.answers, st.result⟩ = true := by
    simp [sweepExpired, get_attempt_end_time, hin, hexp]
  refine ⟨by rw [hquick], ?_, ?_, by rw [hquick], ?_, hexp⟩
  · rw [hquick]
    exact calculate_exam_result_status exam _ st.answers now
  · rw [hquick]
    exact calculate_exam_result_submit_time exam _ st.answers now
  · simp only [auto_submit_expired_exams, List.map_cons, List.map_nil, hrow, if_true]
    rw [sweepFinalizeRow_submit_time]

/-- C10 witness: the expired start at time 1600 against `exam1000` records
`submit_time = 1600` while the sweep records the deadline 1000. -/
theorem C10_start_expired_records_now_witness :
    (student_start_exam_existing exam1000 stInProgress 1600).2 =
      .timeExpiredAutoSubmitted ∧
    (student_start_exam_existing exam1000 stInProgress 1600).1.attempt.status =
      .auto_submitted ∧
    (student_start_exam_existing exam1000 stInProgress 1600).1.attempt.submit_time =
      some 1600 ∧
    (student_start_exam_existing exam1000 stInProgress 1600).1.result =
      some (calculate_exam_result exam1000
        { stInProgress.attempt with submit_time := some 1600, status := .auto_submitted }
        stInProgress.answers 1600).2.2 ∧
    ((auto_submit_expired_exams 1600
        [⟨exam1000, stInProgress.attempt, stInProgress.answers, stInProgress.result⟩]).map
        fun r => r.attempt.submit_time) = [some (get_attempt_end_time exam1000)] ∧
    get_attempt_end_time exam1000 < 1600 :=
  C10_start_expired_records_now exam1000 stInProgress 1600 (by decide) (by decide)
